import Mathlib

/-!
Verification of the FivcGlue Redis cache demo (`src/examples/redis_cache_demo.py`)
against its natural-language specification.

Two layers are embedded:

1. The cache collaborator contract (`set_value`, `get_value`, TTL expiry).
   The implementation `fivcglue/implements/caches_redis.py` (`CacheImpl`) is
   not part of the given sources — only the demo script that calls it — so the
   collaborator is modelled from the specification's contract (spec sections
   3, 4.1 and 8), with explicit logical time.

2. The demo script `main()` itself, embedded as the trace of externally
   visible events it produces, parametrised by an oracle giving the
   collaborator's answers (`connected`, the result of each `set_value` call,
   the result of each `get_value` call).
-/

set_option autoImplicit false

namespace FivcGlue

/-- A stored value: an opaque byte sequence, one `Nat` per byte. -/
abbrev Bytes := List Nat

/-- Modelled from the spec: a cache entry as stored by the missing
`CacheImpl` (`fivcglue/implements/caches_redis.py`): an opaque byte-sequence
value together with the absolute time at which it expires (write time plus
the TTL attached at write time, spec section 3). -/
structure CacheEntry where
  value : Bytes
  expireAt : Nat
  deriving DecidableEq, Repr

/-- Modelled from the spec: the backing store's state, a mapping from keys to
entries. Newer writes are prepended; lookups take the first match, so a write
supersedes any earlier entry for the same key. -/
def CacheState := List (String × CacheEntry)

/-- The store holding no entries at all. -/
def emptyCache : CacheState := []

/-- First entry stored under key `k`, the most recent write to `k`. -/
def lookupEntry : CacheState → String → Option CacheEntry
  | [], _ => none
  | (k', e) :: rest, k => if k' = k then some e else lookupEntry rest k

/-- Modelled from the spec: `set_value(key, value, ttl) -> success` of the
missing `CacheImpl`. Stores `value` under `key` with an expiration of `ttl`
from `now`; a `None`/absent value is persisted as an empty byte sequence,
never as a null marker (spec section 4.1). Returns the success flag together
with the new store state; no failure path is exercised by the demo, so the
modelled write always succeeds. -/
def set_value (s : CacheState) (now : Nat) (key : String) (value : Option Bytes)
    (ttl : Nat) : Bool × CacheState :=
  (true, (key, ⟨value.getD [], now + ttl⟩) :: s)

/-- Modelled from the spec: `get_value(key) -> optional bytes` of the missing
`CacheImpl`. Returns the stored bytes if the key exists and has not expired,
and the "not found" sentinel `none` when the key is missing or has expired
(spec section 4.1); passive expiry by the store is modelled observationally,
an entry being visible exactly while `now` is before its expiration time. -/
def get_value (s : CacheState) (now : Nat) (key : String) : Option Bytes :=
  match lookupEntry s key with
  | none => none
  | some e => if now < e.expireAt then some e.value else none

/-- One write operation, for reasoning about sequences of writes. -/
structure WriteOp where
  now : Nat
  key : String
  value : Option Bytes
  ttl : Nat

/-- Apply a sequence of writes to a store, in order. -/
def runWrites (s : CacheState) (ws : List WriteOp) : CacheState :=
  ws.foldl (fun st w => (set_value st w.now w.key w.value w.ttl).2) s

/-- ASCII bytes of a string, for the demo's literal byte-string values. -/
def strBytes (s : String) : Bytes := s.toList.map Char.toNat

/-- Decode a byte sequence back to a string (the demo's `.decode()`). -/
def decode (b : Bytes) : String := String.mk (b.map Char.ofNat)

/-- The demo's first stored value, the JSON document of line 68. -/
def userValue : Bytes :=
  strBytes "\x7b\"name\": \"John Doe\", \"email\": \"john@example.com\"\x7d"

/-- The demo's short-lived value (line 104). -/
def shortValue : Bytes := strBytes "This will expire in 2 seconds"

theorem lookupEntry_set_self (s : CacheState) (now : Nat) (k : String)
    (v : Option Bytes) (t : Nat) :
    lookupEntry (set_value s now k v t).2 k = some ⟨v.getD [], now + t⟩ := by
  simp [set_value, lookupEntry]

theorem lookupEntry_set_other (s : CacheState) (now : Nat) (k k' : String)
    (v : Option Bytes) (t : Nat) (h : k' ≠ k) :
    lookupEntry (set_value s now k' v t).2 k = lookupEntry s k := by
  simp [set_value, lookupEntry, h]

theorem lookupEntry_runWrites_of_not_written (ws : List WriteOp) :
    ∀ s : CacheState, ∀ k : String, lookupEntry s k = none →
      (∀ w ∈ ws, w.key ≠ k) → lookupEntry (runWrites s ws) k = none := by
  induction ws with
  | nil => intro s k hs _; simpa [runWrites] using hs
  | cons w ws ih =>
    intro s k hs hk
    have hw : w.key ≠ k := hk w (List.mem_cons_self w ws)
    have : runWrites s (w :: ws) =
        runWrites (set_value s w.now w.key w.value w.ttl).2 ws := by
      simp [runWrites]
    rw [this]
    refine ih _ k ?_ (fun w' hw' => hk w' (List.mem_cons_of_mem w hw'))
    rw [lookupEntry_set_other s w.now k w.key w.value w.ttl hw]
    exact hs

theorem get_value_set_self (s : CacheState) (now : Nat) (k : String)
    (v : Option Bytes) (t : Nat) (ht : 0 < t) :
    get_value (set_value s now k v t).2 now k = some (v.getD []) := by
  rw [get_value, lookupEntry_set_self]
  simp [Nat.lt_add_of_pos_right ht]

/-- C1: for every key `k`, value `v` and TTL `t > 0`, writing `(k, v, t)` and
then immediately reading `k` returns `v` unchanged; when `v` is absent
(`none`), the read returns `some []` — an empty byte sequence, not the null
sentinel. -/
theorem set_then_get_roundtrip (s : CacheState) (now : Nat) (k : String)
    (v : Option Bytes) (t : Nat) (ht : 0 < t) :
    get_value (set_value s now k v t).2 now k = some (v.getD []) :=
  get_value_set_self s now k v t ht

/-- Witness for C1 at a concrete input, covering both the `some` case and the
`none`-normalisation case. -/
theorem set_then_get_roundtrip_witness :
    get_value (set_value emptyCache 0 "demo:user:123" (some userValue) 30).2
        0 "demo:user:123" = some userValue ∧
    get_value (set_value emptyCache 5 "demo:none_value" none 60).2
        5 "demo:none_value" = some [] :=
  ⟨set_then_get_roundtrip emptyCache 0 "demo:user:123" (some userValue) 30
      (by decide),
   set_then_get_roundtrip emptyCache 5 "demo:none_value" none 60 (by decide)⟩

/-- C2: writing `(k, none, t)` stores an empty byte sequence, never a null
marker: the resulting store state is identical to the one produced by writing
an explicitly empty value, so no subsequent read can distinguish the two; and
an immediate read (within the TTL) returns `some []`, the empty byte
sequence. -/
theorem none_normalized_to_empty (s : CacheState) (now : Nat) (k : String)
    (t : Nat) :
    set_value s now k none t = set_value s now k (some []) t ∧
    (0 < t → get_value (set_value s now k none t).2 now k = some []) := by
  constructor
  · rfl
  · intro ht
    exact get_value_set_self s now k none t ht

/-- Witness for C2 at a concrete input. -/
theorem none_normalized_to_empty_witness :
    set_value emptyCache 0 "demo:none_value" none 60 =
      set_value emptyCache 0 "demo:none_value" (some []) 60 ∧
    get_value (set_value emptyCache 0 "demo:none_value" none 60).2
      0 "demo:none_value" = some [] :=
  ⟨(none_normalized_to_empty emptyCache 0 "demo:none_value" 60).1,
   (none_normalized_to_empty emptyCache 0 "demo:none_value" 60).2 (by decide)⟩

/-- C3: reading a key that no write of the execution ever touched returns the
"not found" sentinel `none`, which is distinct from an empty byte sequence
`some []`. -/
theorem unwritten_key_not_found (ws : List WriteOp) (now : Nat) (k : String)
    (hk : ∀ w ∈ ws, w.key ≠ k) :
    get_value (runWrites emptyCache ws) now k = none ∧
    (none : Option Bytes) ≠ some [] := by
  refine ⟨?_, by simp⟩
  rw [get_value, lookupEntry_runWrites_of_not_written ws emptyCache k rfl hk]

/-- Witness for C3: after all five writes of the demo, the never-written key
`"demo:nonexistent"` reads as `none`. -/
theorem unwritten_key_not_found_witness :
    get_value
      (runWrites emptyCache
        [⟨0, "demo:user:123", some userValue, 30⟩,
         ⟨1, "demo:short_lived", some shortValue, 2⟩,
         ⟨5, "demo:counter", some (strBytes "1"), 300⟩,
         ⟨5, "demo:counter", some (strBytes "2"), 300⟩,
         ⟨6, "demo:none_value", none, 60⟩])
      6 "demo:nonexistent" = none ∧
    (none : Option Bytes) ≠ some [] :=
  unwritten_key_not_found
    [⟨0, "demo:user:123", some userValue, 30⟩,
     ⟨1, "demo:short_lived", some shortValue, 2⟩,
     ⟨5, "demo:counter", some (strBytes "1"), 300⟩,
     ⟨5, "demo:counter", some (strBytes "2"), 300⟩,
     ⟨6, "demo:none_value", none, 60⟩]
    6 "demo:nonexistent" (by decide)

/-- C4: after writing `(k, v, t)`, any read strictly more than `t` after the
write returns the "not found" sentinel; concretely, `"demo:short_lived"`
written with a 2-second TTL is readable immediately as the exact stored
string and reads as "not found" after a 3-second wait. -/
theorem expired_key_not_found (s : CacheState) (now : Nat) (k : String)
    (v : Option Bytes) (t d : Nat) (h : t < d) :
    get_value (set_value s now k v t).2 (now + d) k = none ∧
    get_value (set_value emptyCache 0 "demo:short_lived" (some shortValue) 2).2
      0 "demo:short_lived" = some shortValue ∧
    get_value (set_value emptyCache 0 "demo:short_lived" (some shortValue) 2).2
      3 "demo:short_lived" = none := by
  refine ⟨?_, by decide, by decide⟩
  rw [get_value, lookupEntry_set_self]
  have : ¬ now + d < now + t := by omega
  simp [this]

/-- Witness for C4 at the demo's concrete scenario: TTL 2, wait 3. -/
theorem expired_key_not_found_witness :
    get_value (set_value emptyCache 0 "demo:short_lived" (some shortValue) 2).2
      (0 + 3) "demo:short_lived" = none ∧
    get_value (set_value emptyCache 0 "demo:short_lived" (some shortValue) 2).2
      0 "demo:short_lived" = some shortValue ∧
    get_value (set_value emptyCache 0 "demo:short_lived" (some shortValue) 2).2
      3 "demo:short_lived" = none :=
  expired_key_not_found emptyCache 0 "demo:short_lived" (some shortValue) 2 3
    (by decide)

/-- C5: writing `(k, v1, t)` and then `(k, v2, t)` and reading `k` (within the
TTL of the second write) returns `v2`: the second write overwrites the first,
last write wins. -/
theorem last_write_wins (s : CacheState) (n1 n2 : Nat) (k : String)
    (v1 v2 : Bytes) (t : Nat) (ht : 0 < t) :
    get_value (set_value (set_value s n1 k (some v1) t).2 n2 k (some v2) t).2
      n2 k = some v2 :=
  get_value_set_self (set_value s n1 k (some v1) t).2 n2 k (some v2) t ht

/-- Witness for C5 at the demo's update scenario (`"demo:counter"`). -/
theorem last_write_wins_witness :
    get_value
      (set_value (set_value emptyCache 0 "demo:counter" (some (strBytes "1"))
          300).2
        0 "demo:counter" (some (strBytes "2")) 300).2
      0 "demo:counter" = some (strBytes "2") :=
  last_write_wins emptyCache 0 0 "demo:counter" (strBytes "1") (strBytes "2")
    300 (by decide)

/-- C7: overwriting an existing entry attaches the fresh expiration: after
writing `(k, v1, t1)` at time `n1` and `(k, v2, t2)` at time `n2`, the stored
entry expires at `n2 + t2`, and a read `d` after the second write finds the
entry exactly while `d < t2` — independent of `n1` and `t1`. -/
theorem overwrite_resets_ttl (s : CacheState) (n1 n2 : Nat) (k : String)
    (v1 v2 : Option Bytes) (t1 t2 : Nat) :
    lookupEntry (set_value (set_value s n1 k v1 t1).2 n2 k v2 t2).2 k =
      some ⟨v2.getD [], n2 + t2⟩ ∧
    ∀ d : Nat,
      get_value (set_value (set_value s n1 k v1 t1).2 n2 k v2 t2).2 (n2 + d) k
        = if d < t2 then some (v2.getD []) else none := by
  refine ⟨lookupEntry_set_self _ n2 k v2 t2, fun d => ?_⟩
  rw [get_value, lookupEntry_set_self]
  by_cases hd : d < t2
  · simp [hd]
  · have : ¬ n2 + d < n2 + t2 := by omega
    simp [hd, this]

/-- Witness for C7: overwriting with a shorter TTL shortens the remaining
lifetime, measured from the second write. -/
theorem overwrite_resets_ttl_witness :
    lookupEntry (set_value (set_value emptyCache 0 "demo:counter"
        (some (strBytes "1")) 300).2 10 "demo:counter" (some (strBytes "2"))
        5).2 "demo:counter" = some ⟨strBytes "2", 15⟩ ∧
    get_value (set_value (set_value emptyCache 0 "demo:counter"
        (some (strBytes "1")) 300).2 10 "demo:counter" (some (strBytes "2"))
        5).2 (10 + 7) "demo:counter" = none :=
  ⟨(overwrite_resets_ttl emptyCache 0 10 "demo:counter" (some (strBytes "1"))
      (some (strBytes "2")) 300 5).1,
   by
    have h := (overwrite_resets_ttl emptyCache 0 10 "demo:counter"
      (some (strBytes "1")) (some (strBytes "2")) 300 5).2 7
    simpa using h⟩

/-- One externally visible action of the demo script `main()`:
a cache/collaborator call (with the answer it received), a printed line, or a
sleep. Prints that interpolate a runtime value are recorded structurally as
the label together with the value printed (`printVal` for Python's default
rendering of an optional byte string, `printValDecoded` for
`value.decode() if value else 'None'`); the exact textual formatting of
those two is not modelled. -/
inductive Event where
  | checkConnected (result : Bool)
  | registerComponent (interfaceName : String) (name : String)
  | setValue (key : String) (value : Option Bytes) (ttlSeconds : Nat)
      (result : Bool)
  | getValue (key : String) (result : Option Bytes)
  | printLine (line : String)
  | printVal (label : String) (value : Option Bytes)
  | printValDecoded (label : String) (value : Option Bytes)
  | sleepSeconds (seconds : Nat)
  deriving DecidableEq, Repr

/-- Python truthiness of an optional byte string: `None` and empty bytes are
falsy, nonempty bytes are truthy. -/
def truthy : Option Bytes → Bool
  | none => false
  | some b => !b.isEmpty

/-- The collaborator's answers during one run of the script: the `connected`
probe, and the results of the successive `set_value` and `get_value` calls,
numbered in program order. -/
structure CacheOracle where
  connected : Bool
  setResult : Nat → Bool
  getResult : Nat → Option Bytes

/-- `"=" * 60` (lines 29, 31, 171, 173). -/
def bar60 : String := String.mk (List.replicate 60 (Char.ofNat 61))

/-- `"-" * 60` (section separators). -/
def dash60 : String := String.mk (List.replicate 60 (Char.ofNat 45))

/-- Events of `main()` before the `connected` check (lines 29-40). -/
def prefixTrace : List Event :=
  [Event.printLine bar60,
   Event.printLine "Redis Cache Implementation Demo",
   Event.printLine bar60,
   Event.printLine "",
   Event.printLine "Creating Redis cache (localhost:6379)...",
   Event.printLine ""]

/-- Events of the early-return branch when `connected` is false
(lines 44-50). -/
def notConnectedTail : List Event :=
  [Event.printLine "⚠️  Redis is not connected!",
   Event.printLine "Please ensure Redis is running on localhost:6379",
   Event.printLine "",
   Event.printLine "To start Redis with Docker:",
   Event.printLine "  docker run -d -p 6379:6379 redis:latest",
   Event.printLine ""]

/-- Events of `main()` after a successful `connected` check (lines 52-173),
given the results `r0..r4` of the five `set_value` calls and `g0..g5` of the
six `get_value` calls, in program order. -/
def connectedTail (r0 r1 r2 r3 r4 : Bool) (g0 g1 g2 g3 g4 g5 : Option Bytes) :
    List Event :=
  [Event.printLine "✓ Connected to Redis successfully!",
   Event.printLine "",
   Event.registerComponent "ICache" "redis",
   Event.printLine "✓ Cache registered with component site",
   Event.printLine "",
   Event.printLine dash60,
   Event.printLine "Basic Cache Operations",
   Event.printLine dash60,
   Event.printLine "",
   Event.printLine "Setting key: demo:user:123",
   Event.printLine ("Value: " ++ decode userValue),
   Event.printLine "Expiration: 30.0 seconds",
   Event.setValue "demo:user:123" (some userValue) 30 r0,
   Event.printLine (if r0 then "Result: ✓ Success" else "Result: ✗ Failed"),
   Event.printLine "",
   Event.printLine "Getting key: demo:user:123",
   Event.getValue "demo:user:123" g0] ++
  (if truthy g0 then
    [Event.printValDecoded "Retrieved" g0,
     Event.printLine "✓ Value found in cache"]
   else
    [Event.printLine "✗ Value not found"]) ++
  [Event.printLine "",
   Event.printLine "Getting non-existent key: demo:nonexistent",
   Event.getValue "demo:nonexistent" g1,
   Event.printVal "Result" g1,
   Event.printLine "✓ Correctly returns None for missing keys",
   Event.printLine "",
   Event.printLine dash60,
   Event.printLine "Expiration Demo",
   Event.printLine dash60,
   Event.printLine "",
   Event.printLine "Setting key with 2-second expiration: demo:short_lived",
   Event.setValue "demo:short_lived" (some shortValue) 2 r1,
   Event.printLine "Immediately retrieving...",
   Event.getValue "demo:short_lived" g2,
   Event.printValDecoded "Result" g2,
   Event.printLine "",
   Event.printLine "Waiting 3 seconds for expiration...",
   Event.sleepSeconds 3,
   Event.printLine "Retrieving after expiration...",
   Event.getValue "demo:short_lived" g3,
   Event.printVal "Result" g3,
   Event.printLine "✓ Value correctly expired and removed by Redis",
   Event.printLine "",
   Event.printLine dash60,
   Event.printLine "Update Demo",
   Event.printLine dash60,
   Event.printLine "",
   Event.printLine "Setting initial value: demo:counter = 1",
   Event.setValue "demo:counter" (some (strBytes "1")) 300 r2,
   Event.printLine "Updating value: demo:counter = 2",
   Event.setValue "demo:counter" (some (strBytes "2")) 300 r3,
   Event.getValue "demo:counter" g4,
   Event.printValDecoded "Retrieved" g4,
   Event.printLine "✓ Value successfully updated",
   Event.printLine "",
   Event.printLine dash60,
   Event.printLine "None Value Demo",
   Event.printLine dash60,
   Event.printLine "",
   Event.printLine "Setting None value for key: demo:none_value",
   Event.setValue "demo:none_value" none 60 r4,
   Event.getValue "demo:none_value" g5,
   Event.printVal "Result" g5,
   Event.printVal "Type" g5,
   Event.printLine "✓ None values are stored as empty bytes",
   Event.printLine "",
   Event.printLine dash60,
   Event.printLine "Cleanup",
   Event.printLine dash60,
   Event.printLine "",
   Event.printLine "Cleaning up demo keys...",
   Event.printLine "✓ Keys will auto-expire based on their TTL",
   Event.printLine "",
   Event.printLine bar60,
   Event.printLine "Demo Complete!",
   Event.printLine bar60]

/-- The full event trace of one run of `main()` against a collaborator whose
answers are given by the oracle `o`. -/
def mainTrace (o : CacheOracle) : List Event :=
  prefixTrace ++
    Event.checkConnected o.connected ::
      (if o.connected then
        connectedTail (o.setResult 0) (o.setResult 1) (o.setResult 2)
          (o.setResult 3) (o.setResult 4) (o.getResult 0) (o.getResult 1)
          (o.getResult 2) (o.getResult 3) (o.getResult 4) (o.getResult 5)
       else notConnectedTail)

/-- Is this event a cache operation (`set_value` or `get_value`)? -/
def Event.isCacheOp : Event → Bool
  | .setValue _ _ _ _ => true
  | .getValue _ _ => true
  | _ => false

/-- Is this event a `set_value` call? -/
def Event.isSet : Event → Bool
  | .setValue _ _ _ _ => true
  | _ => false

/-- Is this event a `register_component` call? -/
def Event.isRegister : Event → Bool
  | .registerComponent _ _ => true
  | _ => false

/-- Forget the boolean result recorded in a `set_value` event, leaving the
rest of the trace untouched. -/
def eraseSetResult : Event → Event
  | .setValue k v t _ => .setValue k v t false
  | e => e

/-- A disconnected collaborator (concrete oracle for witnesses). -/
def oracleOff : CacheOracle := ⟨false, fun _ => true, fun _ => none⟩

/-- A connected collaborator that answers every read with `none` (concrete
oracle for witnesses). -/
def oracleOn : CacheOracle := ⟨true, fun _ => true, fun _ => none⟩

/-- A connected collaborator whose first read returns empty bytes (concrete
oracle for witnesses). -/
def oracleEmpty : CacheOracle := ⟨true, fun _ => true, fun _ => some []⟩

/-- A connected collaborator whose writes after the first fail (concrete
oracle for witnesses). -/
def oracleLateFail : CacheOracle :=
  ⟨true, fun i => decide (i = 0), fun _ => none⟩

/-- C6: in every run of the script, the `connected` probe is checked before
any cache operation; and when `connected` is false, the whole trace contains
no `set_value` or `get_value` call and the script prints the guidance lines
before returning early. -/
theorem connected_checked_before_ops (o : CacheOracle) :
    (∃ pre post,
      mainTrace o = pre ++ Event.checkConnected o.connected :: post ∧
      ∀ e ∈ pre, e.isCacheOp = false) ∧
    (o.connected = false →
      (∀ e ∈ mainTrace o, e.isCacheOp = false) ∧
      Event.printLine "⚠️  Redis is not connected!" ∈ mainTrace o ∧
      Event.printLine "Please ensure Redis is running on localhost:6379" ∈
        mainTrace o ∧
      Event.printLine "To start Redis with Docker:" ∈ mainTrace o) := by
  constructor
  · exact ⟨prefixTrace, _, rfl, by decide⟩
  · intro h
    have ht : mainTrace o =
        prefixTrace ++ Event.checkConnected false :: notConnectedTail := by
      simp [mainTrace, h]
    rw [ht]
    exact ⟨by decide, by decide, by decide, by decide⟩

/-- Witness for C6 at a concrete disconnected oracle. -/
theorem connected_checked_before_ops_witness :
    (∀ e ∈ mainTrace oracleOff, e.isCacheOp = false) ∧
    Event.printLine "⚠️  Redis is not connected!" ∈ mainTrace oracleOff ∧
    Event.printLine "Please ensure Redis is running on localhost:6379" ∈
      mainTrace oracleOff ∧
    Event.printLine "To start Redis with Docker:" ∈ mainTrace oracleOff :=
  (connected_checked_before_ops oracleOff).2 rfl

theorem found_mem_connectedTail (r0 r1 r2 r3 r4 : Bool)
    (g0 g1 g2 g3 g4 g5 : Option Bytes) :
    Event.printLine "✓ Value found in cache" ∈
        connectedTail r0 r1 r2 r3 r4 g0 g1 g2 g3 g4 g5 ↔
      truthy g0 = true := by
  cases hg : truthy g0 <;> cases r0 <;>
    simp +decide [connectedTail, hg]

theorem notFound_mem_connectedTail (r0 r1 r2 r3 r4 : Bool)
    (g0 g1 g2 g3 g4 g5 : Option Bytes) :
    Event.printLine "✗ Value not found" ∈
        connectedTail r0 r1 r2 r3 r4 g0 g1 g2 g3 g4 g5 ↔
      truthy g0 = false := by
  cases hg : truthy g0 <;> cases r0 <;>
    simp +decide [connectedTail, hg]

/-- C8: in a connected run, the script reports "✓ Value found in cache" after
the first `get_value("demo:user:123")` exactly when the returned value is
truthy (non-`none` and nonempty bytes); in particular a returned empty byte
sequence is reported as "✗ Value not found", so the script's own report
conflates the "not found" sentinel with a stored empty value. -/
theorem found_report_iff_truthy (o : CacheOracle)
    (hc : o.connected = true) :
    (Event.printLine "✓ Value found in cache" ∈ mainTrace o ↔
      truthy (o.getResult 0) = true) ∧
    (o.getResult 0 = some [] →
      Event.printLine "✗ Value not found" ∈ mainTrace o ∧
      Event.printLine "✓ Value found in cache" ∉ mainTrace o) := by
  have hpre1 : Event.printLine "✓ Value found in cache" ∉ prefixTrace := by
    decide
  have hpre2 : Event.printLine "✗ Value not found" ∉ prefixTrace := by
    decide
  constructor
  · rw [mainTrace, hc]
    simp only [if_true, List.mem_append, List.mem_cons]
    rw [found_mem_connectedTail]
    simp [hpre1]
  · intro h0
    have hg : truthy (o.getResult 0) = false := by rw [h0]; rfl
    constructor
    · rw [mainTrace, hc]
      simp only [if_true, List.mem_append, List.mem_cons]
      rw [notFound_mem_connectedTail]
      simp [hg]
    · rw [mainTrace, hc]
      simp only [if_true, List.mem_append, List.mem_cons]
      rw [found_mem_connectedTail]
      simp [hpre1, hg]

/-- Witness for C8 at a concrete oracle whose first read returns empty
bytes. -/
theorem found_report_iff_truthy_witness :
    Event.printLine "✗ Value not found" ∈ mainTrace oracleEmpty ∧
    Event.printLine "✓ Value found in cache" ∉ mainTrace oracleEmpty :=
  (found_report_iff_truthy oracleEmpty rfl).2 rfl

/-- C9: the script makes exactly five `set_value` calls in a connected run,
and only the first one's boolean result influences anything beyond the call
itself: two runs whose collaborators agree on `connected`, on every read
result and on the first write's result produce identical traces once the
recorded write results themselves are forgotten — the script proceeds
identically whether the last four writes succeed or fail. -/
theorem only_first_set_result_observed (o1 o2 : CacheOracle)
    (hc : o1.connected = o2.connected)
    (hg : ∀ i, o1.getResult i = o2.getResult i)
    (hs : o1.setResult 0 = o2.setResult 0) :
    (mainTrace o1).map eraseSetResult = (mainTrace o2).map eraseSetResult ∧
    (o1.connected = true →
      ((mainTrace o1).filter Event.isSet).length = 5) := by
  constructor
  · rw [mainTrace, mainTrace, hc]
    cases hcon : o2.connected
    · simp
    · simp only [if_true]
      rw [connectedTail, connectedTail, hs, hg 0, hg 1, hg 2, hg 3, hg 4,
        hg 5]
      simp [eraseSetResult, apply_ite (List.map eraseSetResult)]
  · intro h
    rw [mainTrace, h]
    simp only [if_true]
    rw [connectedTail]
    simp [Event.isSet, List.filter_append,
      apply_ite (List.filter Event.isSet), prefixTrace]

/-- Witness for C9: a run whose writes all succeed and a run whose writes
after the first all fail have the same trace up to the recorded write
results. -/
theorem only_first_set_result_observed_witness :
    (mainTrace oracleOn).map eraseSetResult =
      (mainTrace oracleLateFail).map eraseSetResult ∧
    (oracleOn.connected = true →
      ((mainTrace oracleOn).filter Event.isSet).length = 5) :=
  only_first_set_result_observed oracleOn oracleLateFail rfl (fun _ => rfl)
    rfl

/-- C10: in every run, `register_component` is called at most once — with
interface `ICache`, the single constructed cache instance, and name
`"redis"` — and any such call happens after the `connected` probe was
checked; when `connected` is false no registration occurs at all, so a
registration occurs exactly when the probe was checked and found true. -/
theorem register_once_after_connected (o : CacheOracle) :
    ((mainTrace o).filter Event.isRegister =
      if o.connected then [Event.registerComponent "ICache" "redis"]
      else []) ∧
    (∃ pre post,
      mainTrace o = pre ++ Event.checkConnected o.connected :: post ∧
      pre.filter Event.isRegister = []) := by
  constructor
  · cases hcon : o.connected
    · rw [mainTrace, hcon]
      simp [prefixTrace, notConnectedTail, Event.isRegister]
    · rw [mainTrace, hcon]
      simp only [if_true]
      rw [connectedTail]
      simp [Event.isRegister, List.filter_append,
        apply_ite (List.filter Event.isRegister), prefixTrace]
  · exact ⟨prefixTrace, _, rfl, by decide⟩

/-- Witness for C10 at a concrete connected oracle. -/
theorem register_once_after_connected_witness :
    ((mainTrace oracleOn).filter Event.isRegister =
      if oracleOn.connected then [Event.registerComponent "ICache" "redis"]
      else []) ∧
    (∃ pre post,
      mainTrace oracleOn = pre ++
        Event.checkConnected oracleOn.connected :: post ∧
      pre.filter Event.isRegister = []) :=
  register_once_after_connected oracleOn

end FivcGlue
